import Mathlib

/-!
Shallow embedding of the ad-funnel orchestration widget in
`src/adshare-modal.js` (the site-specific code after the vendored
libraries, lines 1820-3163), together with proofs about its
configuration resolver, countdown arithmetic, presentation-host
lifecycle, content dispatcher and localization helpers.
-/

namespace AdshareModal

/-- A JavaScript value, as far as the widget manipulates them:
`undefined`, `null`, booleans, (integer) numbers, strings, and opaque
function / object references (e.g. the `afterClose` callback or the
nested `playerOptions` / `ima` objects). -/
inductive JSVal where
  | undef
  | null
  | bool (b : Bool)
  | num (n : Int)
  | str (s : String)
  | func
  | obj
  deriving DecidableEq, Repr

/-- JavaScript truthiness (`ToBoolean`). -/
def truthy : JSVal → Bool
  | .undef => false
  | .null => false
  | .bool b => b
  | .num n => n != 0
  | .str s => s != ""
  | .func => true
  | .obj => true

/-- JavaScript `a || b`: `a` when `a` is truthy, otherwise `b`. -/
def jsOr (a b : JSVal) : JSVal := if truthy a then a else b

/-- JavaScript `ToNumber`, restricted to the integer-valued inputs the
widget uses; `none` models `NaN` (so that comparisons against `NaN` can be
made false). -/
def toNumber : JSVal → Option Int
  | .undef => none
  | .null => some 0
  | .bool b => some (if b then 1 else 0)
  | .num n => some n
  | .str s => if s = "" then some 0 else s.toInt?
  | .func => none
  | .obj => none

/-- JavaScript `v <= 0` (false when `ToNumber(v)` is `NaN`). -/
def jsLeZero (v : JSVal) : Bool :=
  match toNumber v with
  | some n => decide (n ≤ 0)
  | none => false

/-- Whether a value is a string (JavaScript `typeof v == "string"`). -/
def isString : JSVal → Bool
  | .str _ => true
  | _ => false

/-- JavaScript string coercion `"" + v` for the values interpolated into
the HTML templates. -/
def jsToString : JSVal → String
  | .undef => "undefined"
  | .null => "null"
  | .bool b => if b then "true" else "false"
  | .num n => toString n
  | .str s => s
  | .func => "function"
  | .obj => "[object Object]"

/-- The browser's `window.sessionStorage`: whether touching it throws
(e.g. storage disabled by a privacy setting), whether it is available
(truthy), and its key/value content (`getItem` returns `null` for a
missing key). -/
structure SessionStore where
  throws : Bool
  available : Bool
  items : String → Option String

/-- `getSessionStorageOverride(attributeName)`:
reads `window.sessionStorage.getItem(attributeName)` inside
`try { if (window.sessionStorage) ... } catch (e) { return null; }`.
A throw yields `null`; an unavailable storage falls off the end of the
function and yields `undefined`. -/
def getSessionStorageOverride (ss : SessionStore) (attributeName : String) : JSVal :=
  if ss.throws then JSVal.null
  else if ss.available then
    match ss.items attributeName with
    | some v => JSVal.str v
    | none => JSVal.null
  else JSVal.undef

/-- The page environment read by the resolver: session storage and the
page-global `window.funnelmecfg` object (a key read is `undefined` when
the key is absent). -/
structure JsEnv where
  sessionStorage : SessionStore
  funnelmecfg : String → JSVal

/-- `moduleOptions` (and likewise `defaultOptions`): the flat option
object.  `playerVideoPath` stands for the nested
`playerOptions.videoPath` and the `ima*` fields for the nested `ima`
sub-object.  The `messages` field models the presence of a
`moduleOptions.messages` property, which no built-in default defines. -/
structure ModuleOptions where
  locale : JSVal
  afterClose : JSVal
  closeModalAutomatically : JSVal
  countdownDuration : JSVal
  timeout : JSVal
  videoAdTimeout : JSVal
  bannerContentUnitId : JSVal
  content : JSVal
  header : JSVal
  integration : JSVal
  position : JSVal
  assetPath : JSVal
  iframeUrl : JSVal
  adTagUrl : JSVal
  fallBackAdTagUrl : JSVal
  premiumButtonUrl : JSVal
  debug : JSVal
  download : JSVal
  e404 : JSVal
  playerVideoPath : JSVal
  imaId : JSVal
  imaAdTagUrl : JSVal
  imaDebug : JSVal
  imaLocale : JSVal
  imaVpaidMode : JSVal
  messages : Option Unit
  deriving DecidableEq, Repr

/-- The `defaultOptions` literal (source lines 1829-1859). -/
def defaultOptions : ModuleOptions where
  locale := JSVal.null
  afterClose := JSVal.null
  closeModalAutomatically := JSVal.bool false
  countdownDuration := JSVal.num 30
  timeout := JSVal.num 0
  videoAdTimeout := JSVal.num 7000
  bannerContentUnitId := JSVal.num 3510730
  content := JSVal.str "smart"
  header := JSVal.str "default"
  integration := JSVal.str "modal"
  position := JSVal.str "freedownload"
  assetPath := JSVal.str "./lib/"
  iframeUrl := JSVal.str "http://www.neuestens.de/recommendations/videoembed.html"
  adTagUrl := JSVal.str "http://adfarm1.adition.com/banner?sid=3508808&wpt=X"
  fallBackAdTagUrl := JSVal.str "http://adfarm1.adition.com/banner?sid=3552599&wpt=X"
  premiumButtonUrl := JSVal.str "http://uploaded.net/register"
  debug := JSVal.bool false
  download := JSVal.bool true
  e404 := JSVal.bool false
  playerVideoPath := JSVal.str "./vids/"
  imaId := JSVal.str "adshare-videoad"
  imaAdTagUrl := JSVal.str "http://adfarm1.adition.com/banner?sid=3508808&wpt=X"
  imaDebug := JSVal.bool false
  imaLocale := JSVal.str "en"
  imaVpaidMode := JSVal.str "insecure"
  messages := none

/-- The flat property read `moduleOptions[name]` used as the final
fallback of `determineOptionValue`.  `videoPath` is *not* a flat key of
the options object (the default lives under `playerOptions.videoPath`),
so its flat lookup is `undefined`; `playerOptions` and `ima` are nested
object references. -/
def optionLookup (m : ModuleOptions) : String → JSVal
  | "locale" => m.locale
  | "afterClose" => m.afterClose
  | "closeModalAutomatically" => m.closeModalAutomatically
  | "countdownDuration" => m.countdownDuration
  | "timeout" => m.timeout
  | "videoAdTimeout" => m.videoAdTimeout
  | "bannerContentUnitId" => m.bannerContentUnitId
  | "content" => m.content
  | "header" => m.header
  | "integration" => m.integration
  | "position" => m.position
  | "assetPath" => m.assetPath
  | "iframeUrl" => m.iframeUrl
  | "adTagUrl" => m.adTagUrl
  | "fallBackAdTagUrl" => m.fallBackAdTagUrl
  | "premiumButtonUrl" => m.premiumButtonUrl
  | "debug" => m.debug
  | "download" => m.download
  | "e404" => m.e404
  | "playerOptions" => JSVal.obj
  | "ima" => JSVal.obj
  | _ => JSVal.undef

/-- `determineOptionValue(name)` (source lines 1917-1921):
`getSessionStorageOverride(name) || funnelmecfg[name] || options[name]
|| moduleOptions[name]`, where `options` is the caller-supplied options
object recorded by `applyOptions` and `m` is the current
`moduleOptions`. -/
def determineOptionValue (env : JsEnv) (options : String → JSVal)
    (m : ModuleOptions) (name : String) : JSVal :=
  jsOr (getSessionStorageOverride env.sessionStorage name)
    (jsOr (env.funnelmecfg name)
      (jsOr (options name) (optionLookup m name)))

/-- The resolution phase of `applyOptions` (source lines 1866-1886).
The source assigns the fields one at a time onto the fresh default copy;
since each `determineOptionValue(name)` only falls back to the flat read
`moduleOptions[name]` of the very field being assigned — which has not
been reassigned yet at that point — the sequential assignments are
equivalent to this single record built over `defaultOptions`. -/
def resolveOptions (env : JsEnv) (options : String → JSVal) : ModuleOptions :=
  { defaultOptions with
    adTagUrl := determineOptionValue env options defaultOptions "adTagUrl",
    fallBackAdTagUrl := determineOptionValue env options defaultOptions "fallBackAdTagUrl",
    position := determineOptionValue env options defaultOptions "position",
    integration := determineOptionValue env options defaultOptions "integration",
    header := determineOptionValue env options defaultOptions "header",
    content := determineOptionValue env options defaultOptions "content",
    countdownDuration := determineOptionValue env options defaultOptions "countdownDuration",
    premiumButtonUrl := determineOptionValue env options defaultOptions "premiumButtonUrl",
    playerVideoPath := determineOptionValue env options defaultOptions "videoPath",
    bannerContentUnitId := determineOptionValue env options defaultOptions "bannerContentUnitId",
    afterClose := determineOptionValue env options defaultOptions "afterClose",
    closeModalAutomatically := determineOptionValue env options defaultOptions "closeModalAutomatically",
    iframeUrl := determineOptionValue env options defaultOptions "iframeUrl",
    timeout := determineOptionValue env options defaultOptions "timeout",
    videoAdTimeout := determineOptionValue env options defaultOptions "videoAdTimeout",
    assetPath := determineOptionValue env options defaultOptions "assetPath",
    download := determineOptionValue env options defaultOptions "download",
    locale := determineOptionValue env options defaultOptions "locale",
    debug := determineOptionValue env options defaultOptions "debug",
    e404 := determineOptionValue env options defaultOptions "e404" }

/-- Source line 1888-1890: `if (moduleOptions.countdownDuration <= 0)
moduleOptions.closeModalAutomatically = false`. -/
def forceAutoCloseOff (m : ModuleOptions) : ModuleOptions :=
  if jsLeZero m.countdownDuration then
    { m with closeModalAutomatically := JSVal.bool false }
  else m

/-- Source lines 1892-1901: post-processing of boolean parameters that
are set as strings (`v == "true" ? true : false`, applied to
`closeModalAutomatically`, `ima.debug` and `download` when the current
value is a string). -/
def normalizeStringBooleans (m : ModuleOptions) : ModuleOptions :=
  let m1 := if isString m.closeModalAutomatically then
      { m with closeModalAutomatically := JSVal.bool (m.closeModalAutomatically == JSVal.str "true") }
    else m
  let m2 := if isString m1.imaDebug then
      { m1 with imaDebug := JSVal.bool (m1.imaDebug == JSVal.str "true") }
    else m1
  if isString m2.download then
    { m2 with download := JSVal.bool (m2.download == JSVal.str "true") }
  else m2

/-- Source lines 1903-1908, run *after* the string-boolean
normalization: `ima.debug = debug`, `ima.adTagUrl = adTagUrl`,
`ima.debug = debug` (the source assigns it twice), then the deprecated
`vastEndPoint` override
`ima.adTagUrl = getSessionStorageOverride('vastEndPoint') ||
options.vastEndPoint || ima.adTagUrl`. -/
def applyImaOverrides (env : JsEnv) (options : String → JSVal) (m : ModuleOptions) : ModuleOptions :=
  let m1 := { m with imaDebug := m.debug, imaAdTagUrl := m.adTagUrl }
  let legacyVast := jsOr (getSessionStorageOverride env.sessionStorage "vastEndPoint")
    (jsOr (options "vastEndPoint") m1.imaAdTagUrl)
  { m1 with imaAdTagUrl := legacyVast }

/-- `applyOptions(opts)` (source lines 1861-1915).  `opts = none` models
a falsy argument, for which the `if (opts)` guard keeps the bare default
copy. -/
def applyOptions (env : JsEnv) (opts : Option (String → JSVal)) : ModuleOptions :=
  match opts with
  | none => defaultOptions
  | some options =>
    applyImaOverrides env options
      (normalizeStringBooleans (forceAutoCloseOff (resolveOptions env options)))

/-- `getCountdownTimeLeft()` (source lines 2032-2035):
`moduleOptions.countdownDuration - Math.floor((now - adsharecountdownstart) / 1250)`.
`adsharecountdownstart` is the ms timestamp recorded by
`startCountdownTimer()` and `now` the current wall-clock ms; for the
positive literal divisor 1250, `Int` division is exactly `Math.floor` of
the real quotient. -/
def getCountdownTimeLeft (countdownDuration adsharecountdownstart now : Int) : Int :=
  countdownDuration - (now - adsharecountdownstart) / 1250

/-- `isValidLocale(locale)` (source lines 2138-2143).  The source uses
loose `==` against the five literals; for these non-numeric string
literals loose equality coincides with strict value equality. -/
def isValidLocale (locale : JSVal) : Bool :=
  locale == JSVal.str "de" || locale == JSVal.str "en" || locale == JSVal.str "fr" ||
    locale == JSVal.str "es" || locale == JSVal.str "tr"

/-- `getBrowserLanguage()` (source lines 2146-2152) applied to the
browser's `navigator.language || navigator.userLanguage` string:
truncated to its first two characters when longer than two. -/
def getBrowserLanguage (navLang : String) : String :=
  if navLang.length > 2 then navLang.take 2 else navLang

/-- `getLanguage()` (source lines 2129-2136): the configured
`moduleOptions.locale` when it is a valid locale (a valid locale is one
of five string values, whose payload is returned), else the (truncated)
browser language when valid, else `"en"`. -/
def getLanguage (locale : JSVal) (navLang : String) : String :=
  if isValidLocale locale then
    match locale with
    | JSVal.str s => s
    | _ => ""
  else if isValidLocale (JSVal.str (getBrowserLanguage navLang)) then
    getBrowserLanguage navLang
  else "en"

/-- One locale's entry of the `messages` table (source lines 2056-2117).
Only the fields read by the embedded template builders are modelled; the
source entries carry further message strings. -/
structure LocaleMessages where
  premium_button_title : String
  premium_button_text : String
  deriving DecidableEq, Repr

/-- The `messages` localization table: one entry per locale key
occurring in the source object literal (`de`, `en`, `es`, `fr`, `tr`);
any other key reads `undefined` (`none`). -/
def messages (locale : String) : Option LocaleMessages :=
  if locale = "de" then
    some ⟨"Premium Download!", "Fullspeed &amp; Parallele Downloads"⟩
  else if locale = "en" then
    some ⟨"Premium Download!", "Fullspeed &amp; simulataneous Downloads"⟩
  else if locale = "es" then
    some ⟨"descarga Premium!", "máxima velocidad & descargas paralelas"⟩
  else if locale = "fr" then
    some ⟨"Premium Download!", "Vitesse max & downloads simultanés"⟩
  else if locale = "tr" then
    some ⟨"Premium Download!", "Maksimum hız & paralel indirme…\t\t\t\t\t\t"⟩
  else none

/-- An exception thrown by the widget's JavaScript (reading a property
of `undefined`/`null`, calling a method of a missing DOM element). -/
inductive JsError where
  | typeError
  deriving DecidableEq, Repr

/-- `i18n(msg)` (source lines 2119-2127) for the parameterless messages
used by the embedded builders: `messages[getLanguage()][msg]`.  When the
locale table is missing, reading `[msg]` of `undefined` throws, modelled
as `Except.error`.  `sel` selects the message field named by `msg`. -/
def i18n (locale : JSVal) (navLang : String) (sel : LocaleMessages → String) :
    Except JsError String :=
  match messages (getLanguage locale navLang) with
  | some lm => Except.ok (sel lm)
  | none => Except.error JsError.typeError

/-- The DOM elements whose presence the countdown/teardown code depends
on. -/
structure DomEnv where
  hasAdshareCountdown : Bool
  hasCountdownCounter : Bool
  hasPicoClose : Bool
  hasContentBoxContainer : Bool
  deriving DecidableEq, Repr

/-- One tick of `countdownTimer()` (source lines 1990-2030), with the
DOM writes abstracted away: the result is `Except.error` when the tick
throws, and otherwise `Except.ok rescheduled` where `rescheduled` says
whether `setTimeout(countdownTimer, 100)` was re-armed.

Elapsed branch (`timeLeft <= 0`): the countdown text clears and the
ready-message handlers are installed inside `try/catch`, but
`showCloseButton()` dereferences `document.querySelector('.pico-close')`
unguarded, so a missing close button throws; the
`closeModalAutomatically` close is `closePopup()`, modelled separately.
The chain is never re-armed in this branch.

Running branch (`timeLeft > 0`): when an `adshare-countdown` element
exists, the tick reads `moduleOptions.messages.countdownMessage`;
`moduleOptions.messages` is `undefined` whenever `m.messages = none`,
and the property read throws a TypeError before the chain is re-armed.
Otherwise (an acceptable `countdownCounter` write, or no countdown
element at all) the tick re-arms the chain. -/
def countdownTimer (dom : DomEnv) (m : ModuleOptions) (timeLeft : Int) :
    Except JsError Bool :=
  if timeLeft ≤ 0 then
    if dom.hasPicoClose then Except.ok false
    else Except.error JsError.typeError
  else
    if dom.hasAdshareCountdown then
      match m.messages with
      | none => Except.error JsError.typeError
      | some _ => Except.ok true
    else if dom.hasCountdownCounter then Except.ok true
    else Except.ok true

/-- The literal `prefix` string of `getBannerElementHTML` (source line
2440): the `adshare-countdown` countdown placeholder div. -/
def bannerCountdownDiv : String :=
  "<div id=\"adshare-countdown\" style=\"font-family: 'Helvetica Neue Light', 'Lucida Grande', 'Calibri', 'Arial', sans-serif; font-size: 10px; text-align: center\"></div>"

/-- The literal `bannerTag` iframe string of `getBannerElementHTML`
(source line 2438). -/
def bannerIframeTag : String :=
  "<iframe id=\"adshare-banner-iframe\" scrolling=\"no\" src=\"about:blank\" style=\"border: 0; height: 281px; width: 315px\"></iframe>"

/-- The `postfix` premium-button form of `getBannerElementHTML` (source
line 2441), given the two looked-up premium-button messages. -/
def bannerPremiumForm (m : ModuleOptions) (lm : LocaleMessages) : String :=
  "<div style=\"text-align: center\"><form method=\"get\" action=\"" ++
    jsToString m.premiumButtonUrl ++
    "\" class=\"tfree\"><button type=\"submit\" class=\"prem\"><h1>" ++
    lm.premium_button_title ++ "</h1>" ++ lm.premium_button_text ++
    "</button></form></div>"

/-- `getBannerElementHTML()` (source lines 2437-2443): the
`adshare-countdown` div, the banner iframe and the premium form,
concatenated.  Both `i18n` reads hit the same locale table, so the
lookup is factored; a missing table would make `i18n` throw. -/
def getBannerElementHTML (navLang : String) (m : ModuleOptions) : Except JsError String :=
  match messages (getLanguage m.locale navLang) with
  | none => Except.error JsError.typeError
  | some lm => Except.ok (bannerCountdownDiv ++ bannerIframeTag ++ bannerPremiumForm m lm)

/-- The content variant currently injected into the active presentation
host (the HTML fragment handed to it); `blank` when nothing has been
injected. -/
inductive Variant where
  | blank
  | content404Iframe
  | taboola
  | taboola2nd
  | contentIframe
  | video
  | banner
  | contentAd
  | contentAdV2
  | contentAdFunnel
  | videoBanner
  deriving DecidableEq, Repr

/-- The kind of a pending `setTimeout` callback scheduled by
`displayAd` (the 0ms DOM-sequencing defers of the `display*` functions
run in the same turn and are executed inline by the embedding). -/
inductive TimeoutKind where
  | videoAdRetry
  | smartSwap
  | mix1Swap
  | mix2Swap
  deriving DecidableEq, Repr

/-- A pending `setTimeout` entry: its callback kind and the delay
argument passed to `setTimeout`. -/
structure PendingTimeout where
  kind : TimeoutKind
  delayMs : JSVal
  deriving DecidableEq, Repr

/-- The module-level mutable state of the widget: the two
presentation-host references, the media-player handle and its flag, the
coordination booleans, `moduleOptions` (mutated after resolution only in
`e404`, `iframeUrl` and `ima.adTagUrl`), the pending `displayAd`
timeouts, and two ghost counters recording how many player instances
were actually disposed / created. -/
structure FunnelState where
  modal : Bool
  container : Bool
  variant : Variant
  player : Bool
  playerInitialized : Bool
  startedVideoAd : Bool
  hasEndedFired : Bool
  error404 : Bool
  opts : ModuleOptions
  timeouts : List PendingTimeout
  disposeCount : Nat
  createCount : Nat
  deriving DecidableEq, Repr

/-- The module state right after `applyOptions` resolved `opts`, before
any `display*` call (source lines 3067-3082). -/
def initialState (opts : ModuleOptions) : FunnelState where
  modal := false
  container := false
  variant := Variant.blank
  player := false
  playerInitialized := false
  startedVideoAd := false
  hasEndedFired := false
  error404 := false
  opts := opts
  timeouts := []
  disposeCount := 0
  createCount := 0

/-- `destroyVideoJsPlayer()` without a `videoElement` argument (source
lines 2959-2975): when `player != null` the player and its ima plugin
are disposed (any exception is caught); the `finally`-style tail always
clears `player` and `playerInitialized`.  The ghost `disposeCount`
counts the disposals of a live player. -/
def destroyVideoJsPlayer (s : FunnelState) : FunnelState :=
  { s with
    disposeCount := s.disposeCount + (if s.player then 1 else 0),
    player := false,
    playerInitialized := false }

/-- `setupVideoJsPlayer(videoElement)` (source lines 2904-2956): a still
initialized previous player is destroyed first (the `videoElement`
variant of `destroyVideoJsPlayer` has the same state effect as the
no-argument one), then a fresh player is constructed and wired up.  The
ghost `createCount` counts the constructions. -/
def setupVideoJsPlayer (s : FunnelState) : FunnelState :=
  let s1 := if s.playerInitialized then destroyVideoJsPlayer s else s
  { s1 with
    playerInitialized := true,
    player := true,
    createCount := s1.createCount + 1 }

/-- `closePopup()` (source lines 2392-2410): destroy the player, close
the active host, then null both references.  `modal.close()` and the
`afterClose` callback are wrapped in `try/catch`; in the `container`
branch the DOM removal and the
`document.getElementById('contentBoxContainer').style` reset are not,
so a page without the `contentBoxContainer` element throws there and
the trailing `container = null; modal = null` is skipped. -/
def closePopup (dom : DomEnv) (s : FunnelState) : Except JsError FunnelState :=
  let s1 := destroyVideoJsPlayer s
  if s1.modal then
    Except.ok { s1 with modal := false, container := false, variant := Variant.blank }
  else if s1.container then
    if dom.hasContentBoxContainer then
      Except.ok { s1 with modal := false, container := false, variant := Variant.blank }
    else Except.error JsError.typeError
  else
    Except.ok { s1 with modal := false, container := false, variant := Variant.blank }

/-- The host-selection discipline shared by the guarded `display*`
functions: an existing host (modal first, then container) is reused and
only its inner HTML is replaced; with neither present, `integration ==
'native'` creates the container (`createContainer` +
`startCountdownTimer`), anything else creates and shows a modal
(`createModalWindow` + `show`).  Returns the `(modal, container)` pair
after the call. -/
def hostStep (s : FunnelState) : Bool × Bool :=
  if s.modal then (s.modal, s.container)
  else if s.container then (s.modal, s.container)
  else if s.opts.integration == JSVal.str "native" then (false, true)
  else (true, false)

/-- `displayTalooba()` (source lines 2668-2688). -/
def displayTalooba (s : FunnelState) : FunnelState :=
  if s.modal then { s with variant := Variant.taboola }
  else if s.container then { s with variant := Variant.taboola }
  else if s.opts.integration == JSVal.str "native" then
    { s with container := true, variant := Variant.taboola }
  else
    { s with modal := true, variant := Variant.taboola }

/-- `displayTalooba2ndCall()` (source lines 2690-2710). -/
def displayTalooba2ndCall (s : FunnelState) : FunnelState :=
  if s.modal then { s with variant := Variant.taboola2nd }
  else if s.container then { s with variant := Variant.taboola2nd }
  else if s.opts.integration == JSVal.str "native" then
    { s with container := true, variant := Variant.taboola2nd }
  else
    { s with modal := true, variant := Variant.taboola2nd }

/-- `displayBannerAd()` (source lines 2414-2435). -/
def displayBannerAd (s : FunnelState) : FunnelState :=
  if s.modal then { s with variant := Variant.banner }
  else if s.container then { s with variant := Variant.banner }
  else if s.opts.integration == JSVal.str "native" then
    { s with container := true, variant := Variant.banner }
  else
    { s with modal := true, variant := Variant.banner }

/-- `displayContentAd()` (source lines 2570-2591). -/
def displayContentAd (s : FunnelState) : FunnelState :=
  if s.modal then { s with variant := Variant.contentAd }
  else if s.container then { s with variant := Variant.contentAd }
  else if s.opts.integration == JSVal.str "native" then
    { s with container := true, variant := Variant.contentAd }
  else
    { s with modal := true, variant := Variant.contentAd }

/-- `displayContentAdV2()` (source lines 2593-2610). -/
def displayContentAdV2 (s : FunnelState) : FunnelState :=
  if s.modal then { s with variant := Variant.contentAdV2 }
  else if s.container then { s with variant := Variant.contentAdV2 }
  else if s.opts.integration == JSVal.str "native" then
    { s with container := true, variant := Variant.contentAdV2 }
  else
    { s with modal := true, variant := Variant.contentAdV2 }

/-- `displayContentAdFunnel()` (source lines 2542-2566).  In the
creation branch with `error404` set, `create404Container` is used and no
countdown is started; the host outcome (a container) is the same. -/
def displayContentAdFunnel (s : FunnelState) : FunnelState :=
  if s.modal then { s with variant := Variant.contentAdFunnel }
  else if s.container then { s with variant := Variant.contentAdFunnel }
  else if s.opts.integration == JSVal.str "native" then
    if s.error404 then { s with container := true, variant := Variant.contentAdFunnel }
    else { s with container := true, variant := Variant.contentAdFunnel }
  else
    { s with modal := true, variant := Variant.contentAdFunnel }

/-- `displayContentIframe()` (source lines 2622-2642). -/
def displayContentIframe (s : FunnelState) : FunnelState :=
  if s.modal then { s with variant := Variant.contentIframe }
  else if s.container then { s with variant := Variant.contentIframe }
  else if s.opts.integration == JSVal.str "native" then
    { s with container := true, variant := Variant.contentIframe }
  else
    { s with modal := true, variant := Variant.contentIframe }

/-- `displayVideoAd()` (source lines 2858-2883): in the modal-reuse
branch the previous player is destroyed before the video HTML replaces
the content; then the 0ms-deferred tail runs `setupVideoJsPlayer` on the
fresh video element and clears `hasEndedFired`.  (`displaysFallbackAd`,
set to `false` on entry, is read nowhere relevant and not tracked.) -/
def displayVideoAd (s : FunnelState) : FunnelState :=
  let s1 :=
    if s.modal then
      { destroyVideoJsPlayer s with variant := Variant.video }
    else if s.container then { s with variant := Variant.video }
    else if s.opts.integration == JSVal.str "native" then
      { s with container := true, variant := Variant.video }
    else
      { s with modal := true, variant := Variant.video }
  let s2 := setupVideoJsPlayer s1
  { s2 with hasEndedFired := false }

/-- `displayVideoBanner()` (source lines 3014-3036); its 0ms-deferred
tail clears `hasEndedFired`. -/
def displayVideoBanner (s : FunnelState) : FunnelState :=
  let s1 :=
    if s.modal then { s with variant := Variant.videoBanner }
    else if s.container then { s with variant := Variant.videoBanner }
    else if s.opts.integration == JSVal.str "native" then
      { s with container := true, variant := Variant.videoBanner }
    else
      { s with modal := true, variant := Variant.videoBanner }
  { s1 with hasEndedFired := false }

/-- `displayContent404Iframe()` (source lines 2651-2653):
`container = create404Container(getContent404IframeHtml())` —
unconditional: no reuse check of `modal` or `container`, no
`integration` check, no countdown start. -/
def displayContent404Iframe (s : FunnelState) : FunnelState :=
  { s with container := true, variant := Variant.content404Iframe }

/-- `displayAd(fallback)` (source lines 3085-3158).  `has404Marker`
models `document.getElementById('content').children[2].classList
.contains('aC')` and `navLang` the browser language string.  Each
`setTimeout` scheduled by a branch is appended to `timeouts` with the
literal delay the source passes. -/
def displayAd (has404Marker : Bool) (navLang : String) (s : FunnelState) : FunnelState :=
  if has404Marker then
    let s1 := { s with opts := { s.opts with e404 := JSVal.bool true }, error404 := true }
    displayContent404Iframe s1
  else if s.opts.content == JSVal.str "optimizely1" then
    if getBrowserLanguage navLang = "de" then
      let s1 := { s with opts := { s.opts with iframeUrl := JSVal.str "http://neuestens.de/facebook-videos/picks.html" } }
      displayContentIframe s1
    else
      let s1 := displayVideoAd s
      { s1 with timeouts := s1.timeouts ++ [⟨TimeoutKind.videoAdRetry, s1.opts.videoAdTimeout⟩] }
  else if s.opts.content == JSVal.str "smart" then
    if getBrowserLanguage navLang = "de" then
      let s1 := displayTalooba s
      { s1 with timeouts := s1.timeouts ++ [⟨TimeoutKind.smartSwap, JSVal.num (20 * 1000)⟩] }
    else displayTalooba s
  else if s.opts.content == JSVal.str "mix1" then
    let s1 := displayTalooba s
    if getBrowserLanguage navLang = "de" ∨ getBrowserLanguage navLang = "en" then
      { s1 with timeouts := s1.timeouts ++ [⟨TimeoutKind.mix1Swap, JSVal.num (15 * 1000)⟩] }
    else s1
  else if s.opts.content == JSVal.str "mix2" then
    let s1 := displayTalooba s
    if getBrowserLanguage navLang = "de" ∨ getBrowserLanguage navLang = "en" then
      { s1 with timeouts := s1.timeouts ++ [⟨TimeoutKind.mix2Swap, JSVal.num (15 * 1000)⟩] }
    else s1
  else if s.opts.content == JSVal.str "videobanner" then displayVideoBanner s
  else if s.opts.content == JSVal.str "taboola" then displayTalooba s
  else if s.opts.content == JSVal.str "video" then displayVideoAd s
  else if s.opts.content == JSVal.str "taboola2ndcall" then displayTalooba2ndCall s
  else if s.opts.content == JSVal.str "banner" then displayBannerAd s
  else if s.opts.content == JSVal.str "contentad" then displayContentAdV2 s
  else if s.opts.content == JSVal.str "contentadfunnel" then displayContentAdFunnel s
  else if s.opts.content == JSVal.str "iframe" then displayContentIframe s
  else s

/-- The callback of the `videoAdTimeout` timer scheduled by the
`optimizely1` video branch (source lines 3100-3107): when no ad start
event has fired, switch `ima.adTagUrl` to the fallback URL, dispose the
player, and re-run `displayVideoAd()`. -/
def fireVideoAdRetry (s : FunnelState) : FunnelState :=
  if s.startedVideoAd then s
  else
    let s1 := { s with opts := { s.opts with imaAdTagUrl := s.opts.fallBackAdTagUrl } }
    let s2 := destroyVideoJsPlayer s1
    displayVideoAd s2

/-- The callback of the 20s timer scheduled by the smart/German branch
(source lines 3113-3117): `if (modal) { displayContentIframe(); }` —
guarded on the *modal* reference only. -/
def fireSmartSwap (s : FunnelState) : FunnelState :=
  if s.modal then displayContentIframe s else s

/-! ## Theorems -/

/-- Claim C2: for a fixed start timestamp and configured duration,
`getCountdownTimeLeft()` equals
`countdownDuration - floor((now - adsharecountdownstart) / 1250)`, is
monotonically non-increasing as `now` increases, and becomes `<= 0`
exactly when `countdownDuration * 1250` ms — that is,
`countdownDuration * 1.25` seconds — have elapsed; after only
`countdownDuration * 1000` ms (a literal `countdownDuration` seconds)
it is still positive. -/
theorem getCountdownTimeLeft_formula_monotone_threshold
    (d start n1 n2 : Int) (h12 : n1 ≤ n2) (hd : 1 ≤ d) :
    getCountdownTimeLeft d start n1 = d - (n1 - start) / 1250 ∧
    getCountdownTimeLeft d start n2 ≤ getCountdownTimeLeft d start n1 ∧
    (getCountdownTimeLeft d start n1 ≤ 0 ↔ d * 1250 ≤ n1 - start) ∧
    0 < getCountdownTimeLeft d start (start + d * 1000) := by
  refine ⟨rfl, ?_, ?_, ?_⟩ <;> simp only [getCountdownTimeLeft] <;> omega

/-- Claim C2 witness: the theorem evaluated at duration 30, start 0,
and the two instants 1000 ms and 2000 ms. -/
theorem getCountdownTimeLeft_formula_monotone_threshold_witness :
    (1000 : Int) ≤ 2000 ∧ (1 : Int) ≤ 30 ∧
    (getCountdownTimeLeft 30 0 1000 = 30 - (1000 - 0) / 1250 ∧
      getCountdownTimeLeft 30 0 2000 ≤ getCountdownTimeLeft 30 0 1000 ∧
      (getCountdownTimeLeft 30 0 1000 ≤ 0 ↔ (30 : Int) * 1250 ≤ 1000 - 0) ∧
      0 < getCountdownTimeLeft 30 0 (0 + 30 * 1000)) :=
  ⟨by decide, by decide,
    getCountdownTimeLeft_formula_monotone_threshold 30 0 1000 2000 (by decide) (by decide)⟩

/-- A valid locale is one of the five supported string literals. -/
theorem isValidLocale_cases (l : JSVal) (h : isValidLocale l = true) :
    l = JSVal.str "de" ∨ l = JSVal.str "en" ∨ l = JSVal.str "fr" ∨
      l = JSVal.str "es" ∨ l = JSVal.str "tr" := by
  simp only [isValidLocale, Bool.or_eq_true, beq_iff_eq] at h
  tauto

/-- `getLanguage` only ever returns one of the five supported codes. -/
theorem getLanguage_mem (locale : JSVal) (navLang : String) :
    getLanguage locale navLang = "de" ∨ getLanguage locale navLang = "en" ∨
      getLanguage locale navLang = "fr" ∨ getLanguage locale navLang = "es" ∨
      getLanguage locale navLang = "tr" := by
  unfold getLanguage
  split
  · next h =>
    rcases isValidLocale_cases _ h with h' | h' | h' | h' | h' <;> subst h' <;> simp
  · split
    · next _ h2 =>
      rcases isValidLocale_cases _ h2 with h' | h' | h' | h' | h' <;>
        · injection h' with h''
          simp [h'']
    · simp

/-- The `messages` table has an entry for each of the five codes. -/
theorem messages_isSome_of_valid (c : String)
    (h : c = "de" ∨ c = "en" ∨ c = "fr" ∨ c = "es" ∨ c = "tr") :
    (messages c).isSome = true := by
  rcases h with h | h | h | h | h <;> subst h <;> rfl

/-- Claim C9: `getLanguage` always returns one of the five supported
locale codes — the configured locale when it is one of the five,
otherwise the (first-two-characters) browser language when that is one
of the five, otherwise `"en"` — and consequently the lookup
`messages[getLanguage()]` inside `i18n` never hits a missing locale
table (`i18n` never throws). -/
theorem getLanguage_total (locale : JSVal) (navLang : String) :
    (getLanguage locale navLang = "de" ∨ getLanguage locale navLang = "en" ∨
      getLanguage locale navLang = "fr" ∨ getLanguage locale navLang = "es" ∨
      getLanguage locale navLang = "tr") ∧
    (messages (getLanguage locale navLang)).isSome = true ∧
    (∀ c : String, locale = JSVal.str c → isValidLocale locale = true →
      getLanguage locale navLang = c) ∧
    (isValidLocale locale = false →
      isValidLocale (JSVal.str (getBrowserLanguage navLang)) = true →
      getLanguage locale navLang = getBrowserLanguage navLang) ∧
    (isValidLocale locale = false →
      isValidLocale (JSVal.str (getBrowserLanguage navLang)) = false →
      getLanguage locale navLang = "en") ∧
    (∀ sel : LocaleMessages → String, ∃ msg,
      i18n locale navLang sel = Except.ok msg) := by
  have hmem := getLanguage_mem locale navLang
  have hsome := messages_isSome_of_valid _ hmem
  refine ⟨hmem, hsome, ?_, ?_, ?_, ?_⟩
  · intro c hc hv
    subst hc
    simp [getLanguage, hv]
  · intro hv hb
    simp [getLanguage, hv, hb]
  · intro hv hb
    simp [getLanguage, hv, hb]
  · intro sel
    unfold i18n
    rcases hok : messages (getLanguage locale navLang) with _ | lm
    · rw [hok] at hsome; cases hsome
    · exact ⟨sel lm, rfl⟩

/-- Claim C9 witness: an invalid configured locale (`5`) with browser
language `"de-AT"` resolves to `"de"`, and the locale table is found. -/
theorem getLanguage_total_witness :
    getLanguage (JSVal.num 5) "de-AT" = getBrowserLanguage "de-AT" ∧
    (messages (getLanguage (JSVal.num 5) "de-AT")).isSome = true :=
  ⟨(getLanguage_total (JSVal.num 5) "de-AT").2.2.2.1 (by decide) (by decide),
    (getLanguage_total (JSVal.num 5) "de-AT").2.1⟩

/-- Session storage holding the empty string for `content`, no
`funnelmecfg` entry, and a caller option `content = "banner"`. -/
def envC1 : JsEnv where
  sessionStorage :=
    { throws := false, available := true,
      items := fun name => if name = "content" then some "" else none }
  funnelmecfg := fun _ => JSVal.undef

/-- Caller options for the C1 counterexample. -/
def optsC1 : String → JSVal :=
  fun name => if name = "content" then JSVal.str "banner" else JSVal.undef

/-- Claim C1 counterexample: a session-storage value that is *present*
(the empty string) does not win — the `||` chain treats it as absent and
the caller option is returned instead, both by `determineOptionValue`
and in the configuration built by `applyOptions`. -/
theorem determineOptionValue_present_session_value_loses :
    getSessionStorageOverride envC1.sessionStorage "content" = JSVal.str "" ∧
    determineOptionValue envC1 optsC1 defaultOptions "content" = JSVal.str "banner" ∧
    (applyOptions envC1 (some optsC1)).content = JSVal.str "banner" := by
  refine ⟨rfl, rfl, ?_⟩
  decide

/-- Claim C1 amended: the precedence order session storage >
`funnelmecfg` > caller options > flat `moduleOptions[name]` default
holds with each source winning only when its value is *truthy* (a falsy
value — the empty string, `false`, `0`, `null`, `undefined` — falls
through); `applyOptions` carries the resolver's result into the
effective configuration (shown for the `content` field). -/
theorem determineOptionValue_precedence (env : JsEnv) (options : String → JSVal)
    (m : ModuleOptions) (name : String) :
    (truthy (getSessionStorageOverride env.sessionStorage name) = true →
      determineOptionValue env options m name =
        getSessionStorageOverride env.sessionStorage name) ∧
    (truthy (getSessionStorageOverride env.sessionStorage name) = false →
      truthy (env.funnelmecfg name) = true →
      determineOptionValue env options m name = env.funnelmecfg name) ∧
    (truthy (getSessionStorageOverride env.sessionStorage name) = false →
      truthy (env.funnelmecfg name) = false →
      truthy (options name) = true →
      determineOptionValue env options m name = options name) ∧
    (truthy (getSessionStorageOverride env.sessionStorage name) = false →
      truthy (env.funnelmecfg name) = false →
      truthy (options name) = false →
      determineOptionValue env options m name = optionLookup m name) ∧
    (applyOptions env (some options)).content =
      determineOptionValue env options defaultOptions "content" := by
  refine ⟨?_, ?_, ?_, ?_, ?_⟩
  · intro h1; simp [determineOptionValue, jsOr, h1]
  · intro h1 h2; simp [determineOptionValue, jsOr, h1, h2]
  · intro h1 h2 h3; simp [determineOptionValue, jsOr, h1, h2, h3]
  · intro h1 h2 h3; simp [determineOptionValue, jsOr, h1, h2, h3]
  · simp only [applyOptions, applyImaOverrides, normalizeStringBooleans,
      forceAutoCloseOff, resolveOptions]
    split_ifs <;> rfl

/-- An environment whose session storage holds `content = "banner"`. -/
def envSessionBanner : JsEnv where
  sessionStorage :=
    { throws := false, available := true,
      items := fun name => if name = "content" then some "banner" else none }
  funnelmecfg := fun _ => JSVal.undef

/-- Claim C1 witness: a truthy session-storage value (`"banner"`) wins
over a conflicting caller option. -/
theorem determineOptionValue_precedence_witness :
    truthy (getSessionStorageOverride envSessionBanner.sessionStorage "content") = true ∧
    determineOptionValue envSessionBanner (fun _ => JSVal.str "taboola")
      defaultOptions "content" =
      getSessionStorageOverride envSessionBanner.sessionStorage "content" :=
  ⟨by decide,
    (determineOptionValue_precedence envSessionBanner (fun _ => JSVal.str "taboola")
      defaultOptions "content").1 (by decide)⟩

/-- Claim C8: the `||` chain of `determineOptionValue` treats a falsy
value at a higher-precedence source as absent: with session storage and
`funnelmecfg` falsy and the caller option being `false`, `0`, `null` or
`""`, resolution falls through to the flat default and the caller's
falsy option can never override a truthy built-in default. -/
theorem determineOptionValue_falsy_falls_through (env : JsEnv)
    (options : String → JSVal) (m : ModuleOptions) (name : String)
    (hss : truthy (getSessionStorageOverride env.sessionStorage name) = false)
    (hcfg : truthy (env.funnelmecfg name) = false)
    (hopt : options name = JSVal.bool false ∨ options name = JSVal.num 0 ∨
      options name = JSVal.null ∨ options name = JSVal.str "")
    (hdef : truthy (optionLookup m name) = true) :
    determineOptionValue env options m name = optionLookup m name ∧
    determineOptionValue env options m name ≠ options name := by
  have htro : truthy (options name) = false := by
    rcases hopt with h | h | h | h <;> simp [h, truthy]
  have hres : determineOptionValue env options m name = optionLookup m name := by
    simp [determineOptionValue, jsOr, hss, hcfg, htro]
  refine ⟨hres, ?_⟩
  rw [hres]
  intro he
  rw [he, htro] at hdef
  cases hdef

/-- An environment with no session storage and no `funnelmecfg`. -/
def envBare : JsEnv where
  sessionStorage := { throws := false, available := false, items := fun _ => none }
  funnelmecfg := fun _ => JSVal.undef

/-- Caller options setting only `download = false`. -/
def optsDownloadFalse : String → JSVal :=
  fun name => if name = "download" then JSVal.bool false else JSVal.undef

/-- Claim C8 witness: caller option `download = false` cannot override
the truthy built-in default `download = true`. -/
theorem determineOptionValue_falsy_falls_through_witness :
    determineOptionValue envBare optsDownloadFalse defaultOptions "download" =
      optionLookup defaultOptions "download" ∧
    determineOptionValue envBare optsDownloadFalse defaultOptions "download" ≠
      optsDownloadFalse "download" :=
  determineOptionValue_falsy_falls_through envBare optsDownloadFalse
    defaultOptions "download" (by decide) (by decide) (Or.inl (by decide)) (by decide)

/-- Session storage holding only `debug = "true"` (a string). -/
def envC5 : JsEnv where
  sessionStorage :=
    { throws := false, available := true,
      items := fun name => if name = "debug" then some "true" else none }
  funnelmecfg := fun _ => JSVal.undef

/-- Claim C5 counterexample: with the session-storage override
`debug = "true"`, `applyOptions` leaves `ima.debug` holding the *string*
`"true"` — the normalization at lines 1896-1898 ran on the (boolean)
default before line 1903 overwrote `ima.debug` with the un-normalized
`debug` value, so `ima.debug` is not a boolean after resolution. -/
theorem applyOptions_ima_debug_stays_string :
    (applyOptions envC5 (some (fun _ => JSVal.undef))).debug = JSVal.str "true" ∧
    (applyOptions envC5 (some (fun _ => JSVal.undef))).imaDebug = JSVal.str "true" ∧
    isString (applyOptions envC5 (some (fun _ => JSVal.undef))).imaDebug = true := by
  decide

/-- `applyImaOverrides` only rewrites the `ima` sub-fields. -/
theorem applyImaOverrides_cma (env : JsEnv) (options : String → JSVal)
    (m : ModuleOptions) :
    (applyImaOverrides env options m).closeModalAutomatically =
      m.closeModalAutomatically := rfl

/-- `applyImaOverrides` leaves `download` untouched. -/
theorem applyImaOverrides_download (env : JsEnv) (options : String → JSVal)
    (m : ModuleOptions) :
    (applyImaOverrides env options m).download = m.download := rfl

/-- The string-boolean pass rewrites `closeModalAutomatically` exactly
when it is a string. -/
theorem normalizeStringBooleans_cma (m : ModuleOptions) :
    (normalizeStringBooleans m).closeModalAutomatically =
      if isString m.closeModalAutomatically then
        JSVal.bool (m.closeModalAutomatically == JSVal.str "true")
      else m.closeModalAutomatically := by
  simp only [normalizeStringBooleans]
  split_ifs <;> rfl

/-- The string-boolean pass rewrites `download` exactly when it is a
string. -/
theorem normalizeStringBooleans_download (m : ModuleOptions) :
    (normalizeStringBooleans m).download =
      if isString m.download then JSVal.bool (m.download == JSVal.str "true")
      else m.download := by
  simp only [normalizeStringBooleans]
  split_ifs <;> rfl

/-- Claim C5 amended: after `applyOptions`, `closeModalAutomatically`
and `download` are actual booleans whenever their resolved value was a
string — `"true"` becomes `true` and any other string becomes `false` —
but `ima.debug` is overwritten after its normalization by the raw
`debug` value, so it simply equals the resolved `debug` value and is a
boolean only when that value is one. -/
theorem applyOptions_string_boolean_normalization (env : JsEnv)
    (options : String → JSVal) :
    (∀ v : String,
      (forceAutoCloseOff (resolveOptions env options)).closeModalAutomatically =
          JSVal.str v →
      (applyOptions env (some options)).closeModalAutomatically =
        JSVal.bool (v == "true")) ∧
    (∀ v : String,
      (forceAutoCloseOff (resolveOptions env options)).download = JSVal.str v →
      (applyOptions env (some options)).download = JSVal.bool (v == "true")) ∧
    (applyOptions env (some options)).imaDebug =
      (applyOptions env (some options)).debug := by
  refine ⟨?_, ?_, rfl⟩
  · intro v hv
    show (applyImaOverrides env options
        (normalizeStringBooleans (forceAutoCloseOff (resolveOptions env options)))).closeModalAutomatically =
      JSVal.bool (v == "true")
    rw [applyImaOverrides_cma, normalizeStringBooleans_cma, hv]
    simp [isString]
  · intro v hv
    show (applyImaOverrides env options
        (normalizeStringBooleans (forceAutoCloseOff (resolveOptions env options)))).download =
      JSVal.bool (v == "true")
    rw [applyImaOverrides_download, normalizeStringBooleans_download, hv]
    simp [isString]

/-- Session storage holding `closeModalAutomatically = "maybe"` (a
string that is neither `"true"` nor `"false"`). -/
def envCmaMaybe : JsEnv where
  sessionStorage :=
    { throws := false, available := true,
      items := fun name => if name = "closeModalAutomatically" then some "maybe" else none }
  funnelmecfg := fun _ => JSVal.undef

/-- Claim C5 witness: a string-resolved `closeModalAutomatically`
(`"maybe"`) is normalized to the boolean `false`. -/
theorem applyOptions_string_boolean_normalization_witness :
    (forceAutoCloseOff (resolveOptions envCmaMaybe (fun _ => JSVal.undef))).closeModalAutomatically =
      JSVal.str "maybe" ∧
    (applyOptions envCmaMaybe (some (fun _ => JSVal.undef))).closeModalAutomatically =
      JSVal.bool ("maybe" == "true") :=
  ⟨by decide,
    (applyOptions_string_boolean_normalization envCmaMaybe (fun _ => JSVal.undef)).1
      "maybe" (by decide)⟩

/-- Whenever `closePopup` returns normally, the host references and the
player state are cleared. -/
theorem closePopup_ok_clears (dom : DomEnv) (s s' : FunnelState)
    (h : closePopup dom s = Except.ok s') :
    s'.modal = false ∧ s'.container = false ∧
      s'.playerInitialized = false ∧ s'.player = false := by
  simp only [closePopup, destroyVideoJsPlayer] at h
  split_ifs at h <;> cases h <;> exact ⟨rfl, rfl, rfl, rfl⟩

/-- Claim C4: whenever `closePopup()` returns, both presentation-host
references are null and `playerInitialized` (and the player reference)
is cleared; and for a session whose host is a modal (as created via
`createModalWindow`), `closePopup` returns normally and a second
back-to-back call also returns normally — the second call finds both
host references null and performs only the guarded player disposal. -/
theorem closePopup_teardown (dom : DomEnv) (s : FunnelState) :
    (∀ s', closePopup dom s = Except.ok s' →
      s'.modal = false ∧ s'.container = false ∧
        s'.playerInitialized = false ∧ s'.player = false) ∧
    (s.modal = true →
      ∃ s' s'', closePopup dom s = Except.ok s' ∧ closePopup dom s' = Except.ok s'') := by
  constructor
  · intro s' h
    exact closePopup_ok_clears dom s s' h
  · intro hm
    have h1 : closePopup dom s =
        Except.ok { destroyVideoJsPlayer s with
          modal := false, container := false, variant := Variant.blank } := by
      simp only [closePopup]
      rw [if_pos (show (destroyVideoJsPlayer s).modal = true from hm)]
    exact ⟨_, _, h1, rfl⟩

/-- A state with a modal session open (as after `createModalWindow` +
`show` on the default configuration). -/
def initialStateModal : FunnelState :=
  { initialState defaultOptions with modal := true, player := true, playerInitialized := true }

/-- A page with none of the expected DOM elements present. -/
def domNone : DomEnv :=
  { hasAdshareCountdown := false, hasCountdownCounter := false,
    hasPicoClose := false, hasContentBoxContainer := false }

/-- Claim C4 witness: a modal session torn down twice in a row, with
every DOM element absent — both calls return normally and the state
after the first call has both hosts null and the player cleared. -/
theorem closePopup_teardown_witness :
    (initialStateModal.modal = true ∧
      ∃ s' s'', closePopup domNone initialStateModal = Except.ok s' ∧
        closePopup domNone s' = Except.ok s'') ∧
    (∀ s', closePopup domNone initialStateModal = Except.ok s' →
      s'.modal = false ∧ s'.container = false ∧
        s'.playerInitialized = false ∧ s'.player = false) :=
  ⟨⟨rfl, (closePopup_teardown domNone initialStateModal).2 rfl⟩,
    (closePopup_teardown domNone initialStateModal).1⟩

/-- The `display*` operations that guard on the existing host before
creating one (every `display*` function of the source except the
unconditional 404 creators `displayContent404Iframe` /
`displayTalooba404`). -/
def guardedDisplays : List (FunnelState → FunnelState) :=
  [displayBannerAd, displayTalooba, displayTalooba2ndCall, displayContentAd,
    displayContentAdV2, displayContentAdFunnel, displayContentIframe,
    displayVideoAd, displayVideoBanner]

/-- Every guarded `display*` operation drives the host references
exactly as `hostStep` describes. -/
theorem guardedDisplays_hostStep (s : FunnelState) :
    ∀ d ∈ guardedDisplays, ((d s).modal, (d s).container) = hostStep s := by
  intro d hd
  fin_cases hd <;>
    simp only [displayBannerAd, displayTalooba, displayTalooba2ndCall,
      displayContentAd, displayContentAdV2, displayContentAdFunnel,
      displayContentIframe, displayVideoAd, displayVideoBanner,
      setupVideoJsPlayer, destroyVideoJsPlayer, hostStep] <;>
    split_ifs <;> simp_all

/-- Claim C3 amended: every *guarded* `display*` operation (all of them
except the unconditional 404 container creators) either reuses the
existing host or, when both references are null, creates exactly one —
the container when `integration == 'native'`, the modal otherwise — and
hence preserves the exclusivity invariant; `closePopup` sets both
references back to null.  `displayContent404Iframe` is excluded: it
assigns `container` unconditionally. -/
theorem display_host_discipline (dom : DomEnv) (s : FunnelState)
    (hinv : s.modal = true → s.container = false) :
    (∀ d ∈ guardedDisplays,
      ((d s).modal, (d s).container) = hostStep s ∧
      ((d s).modal = true → (d s).container = false)) ∧
    (s.modal = false → s.container = false →
      ((s.opts.integration == JSVal.str "native") = true → hostStep s = (false, true)) ∧
      ((s.opts.integration == JSVal.str "native") = false → hostStep s = (true, false))) ∧
    (∀ s', closePopup dom s = Except.ok s' →
      s'.modal = false ∧ s'.container = false) := by
  have hstep : (s.modal = true → s.container = false) →
      ((hostStep s).1 = true → (hostStep s).2 = false) := by
    intro hi
    simp only [hostStep]
    split_ifs with h1 h2 h3 <;> simp_all
  refine ⟨?_, ?_, ?_⟩
  · intro d hd
    have h := guardedDisplays_hostStep s d hd
    refine ⟨h, ?_⟩
    intro hm
    have h1 : (hostStep s).1 = true := by rw [← h]; exact hm
    have h2 := hstep hinv h1
    have hc : ((d s).modal, (d s).container).2 = false := by rw [h]; exact h2
    exact hc
  · intro hm hc
    constructor <;> intro hnat <;> simp [hostStep, hm, hc, hnat]
  · intro s' h
    exact ⟨(closePopup_ok_clears dom s s' h).1, (closePopup_ok_clears dom s s' h).2.1⟩

/-- A state with only a modal session open, on the default options. -/
def modalOpenState : FunnelState :=
  { initialState defaultOptions with modal := true }

/-- Claim C3 counterexample: from a state where only the modal host is
non-null, `displayContent404Iframe` — reached from `displayAd` whenever
the 404 DOM marker is present — assigns `container` without any guard,
leaving *both* presentation-host references non-null at once. -/
theorem displayContent404Iframe_breaks_exclusivity :
    modalOpenState.modal = true ∧ modalOpenState.container = false ∧
    (displayContent404Iframe modalOpenState).modal = true ∧
    (displayContent404Iframe modalOpenState).container = true ∧
    (displayAd true "en" modalOpenState).modal = true ∧
    (displayAd true "en" modalOpenState).container = true := by
  decide

/-- Claim C3 witness: on a fresh state with the default (modal)
integration, `displayTalooba` creates exactly the modal host, and
`closePopup` nulls both references. -/
theorem display_host_discipline_witness :
    ((displayTalooba (initialState defaultOptions)).modal,
      (displayTalooba (initialState defaultOptions)).container) =
      hostStep (initialState defaultOptions) ∧
    (((initialState defaultOptions).opts.integration == JSVal.str "native") = false →
      hostStep (initialState defaultOptions) = (true, false)) ∧
    (∀ s', closePopup domNone (initialState defaultOptions) = Except.ok s' →
      s'.modal = false ∧ s'.container = false) :=
  ⟨((display_host_discipline domNone (initialState defaultOptions)
      (fun h => by cases h)).1 displayTalooba (by simp [guardedDisplays])).1,
    ((display_host_discipline domNone (initialState defaultOptions)
      (fun h => by cases h)).2.1 rfl rfl).2,
    (display_host_discipline domNone (initialState defaultOptions)
      (fun h => by cases h)).2.2⟩

/-- `destroyVideoJsPlayer` leaves the configuration untouched. -/
theorem destroyVideoJsPlayer_opts (s : FunnelState) :
    (destroyVideoJsPlayer s).opts = s.opts := rfl

/-- `destroyVideoJsPlayer` always clears the player reference. -/
theorem destroyVideoJsPlayer_player (s : FunnelState) :
    (destroyVideoJsPlayer s).player = false := rfl

/-- `destroyVideoJsPlayer` counts one disposal exactly when a live
player existed. -/
theorem destroyVideoJsPlayer_disposeCount (s : FunnelState) :
    (destroyVideoJsPlayer s).disposeCount =
      s.disposeCount + (if s.player then 1 else 0) := rfl

/-- `displayVideoAd` always leaves the video variant injected. -/
theorem displayVideoAd_variant (s : FunnelState) :
    (displayVideoAd s).variant = Variant.video := by
  simp only [displayVideoAd, setupVideoJsPlayer, destroyVideoJsPlayer]
  split_ifs <;> rfl

/-- `displayVideoAd` does not change the configuration. -/
theorem displayVideoAd_opts (s : FunnelState) :
    (displayVideoAd s).opts = s.opts := by
  simp only [displayVideoAd, setupVideoJsPlayer, destroyVideoJsPlayer]
  split_ifs <;> rfl

/-- `displayVideoAd` schedules no timeout itself. -/
theorem displayVideoAd_timeouts (s : FunnelState) :
    (displayVideoAd s).timeouts = s.timeouts := by
  simp only [displayVideoAd, setupVideoJsPlayer, destroyVideoJsPlayer]
  split_ifs <;> rfl

/-- `displayVideoAd` does not touch the ad-start flag. -/
theorem displayVideoAd_startedVideoAd (s : FunnelState) :
    (displayVideoAd s).startedVideoAd = s.startedVideoAd := by
  simp only [displayVideoAd, setupVideoJsPlayer, destroyVideoJsPlayer]
  split_ifs <;> rfl

/-- `displayVideoAd` always ends with a live player. -/
theorem displayVideoAd_player (s : FunnelState) :
    (displayVideoAd s).player = true := rfl

/-- `displayVideoAd` creates exactly one new player instance. -/
theorem displayVideoAd_createCount (s : FunnelState) :
    (displayVideoAd s).createCount = s.createCount + 1 := by
  simp only [displayVideoAd, setupVideoJsPlayer, destroyVideoJsPlayer]
  split_ifs <;> rfl

/-- With no live player, `displayVideoAd` disposes nothing. -/
theorem displayVideoAd_disposeCount (s : FunnelState) (hp : s.player = false) :
    (displayVideoAd s).disposeCount = s.disposeCount := by
  simp only [displayVideoAd, setupVideoJsPlayer, destroyVideoJsPlayer]
  split_ifs <;> simp_all

/-- The `optimizely1` non-German branch of `displayAd`: run
`displayVideoAd` and schedule the single `videoAdTimeout` retry
timer. -/
theorem displayAd_optimizely1_branch (navLang : String) (s : FunnelState)
    (hcontent : s.opts.content = JSVal.str "optimizely1")
    (hlang : ¬ getBrowserLanguage navLang = "de") :
    displayAd false navLang s =
      { displayVideoAd s with
        timeouts := (displayVideoAd s).timeouts ++
          [⟨TimeoutKind.videoAdRetry, (displayVideoAd s).opts.videoAdTimeout⟩] } := by
  simp only [displayAd]
  rw [if_neg (by simp), if_pos (by simp [hcontent]), if_neg hlang]

/-- When the ad did not start, the retry callback switches the ad tag to
the fallback, destroys the player and re-runs `displayVideoAd`. -/
theorem fireVideoAdRetry_eq (s : FunnelState) (hs : s.startedVideoAd = false) :
    fireVideoAdRetry s =
      displayVideoAd (destroyVideoJsPlayer
        { s with opts := { s.opts with imaAdTagUrl := s.opts.fallBackAdTagUrl } }) := by
  simp only [fireVideoAdRetry]
  rw [if_neg (by simp [hs])]

/-- Claim C6: with `content == "optimizely1"` and a non-German browser
language (and no 404 marker), `displayAd` shows the video-ad variant and
schedules exactly one timeout, with the `videoAdTimeout` delay; when
that timeout fires while `startedVideoAd` is still false, the ad-tag URL
used for the retry (`moduleOptions.ima.adTagUrl`) equals
`fallBackAdTagUrl`, and across the retry exactly one live player is
disposed and exactly one new player is created. -/
theorem displayAd_optimizely1_fallback_retry (opts : ModuleOptions) (navLang : String)
    (hcontent : opts.content = JSVal.str "optimizely1")
    (hlang : ¬ getBrowserLanguage navLang = "de") :
    (displayAd false navLang (initialState opts)).variant = Variant.video ∧
    (displayAd false navLang (initialState opts)).timeouts =
      [⟨TimeoutKind.videoAdRetry, opts.videoAdTimeout⟩] ∧
    (displayAd false navLang (initialState opts)).startedVideoAd = false ∧
    (fireVideoAdRetry (displayAd false navLang (initialState opts))).opts.imaAdTagUrl =
      opts.fallBackAdTagUrl ∧
    ((displayAd false navLang (initialState opts)).disposeCount = 0 ∧
      (fireVideoAdRetry (displayAd false navLang (initialState opts))).disposeCount = 1) ∧
    ((displayAd false navLang (initialState opts)).createCount = 1 ∧
      (fireVideoAdRetry (displayAd false navLang (initialState opts))).createCount = 2) := by
  have hb := displayAd_optimizely1_branch navLang (initialState opts) hcontent hlang
  have hstart : (displayAd false navLang (initialState opts)).startedVideoAd = false := by
    rw [hb]
    show (displayVideoAd (initialState opts)).startedVideoAd = false
    rw [displayVideoAd_startedVideoAd]; rfl
  have hfire := fireVideoAdRetry_eq _ hstart
  refine ⟨?_, ?_, hstart, ?_, ⟨?_, ?_⟩, ?_, ?_⟩
  · rw [hb]; show (displayVideoAd (initialState opts)).variant = Variant.video
    exact displayVideoAd_variant _
  · rw [hb]
    show (displayVideoAd (initialState opts)).timeouts ++
        [⟨TimeoutKind.videoAdRetry, (displayVideoAd (initialState opts)).opts.videoAdTimeout⟩] =
      [⟨TimeoutKind.videoAdRetry, opts.videoAdTimeout⟩]
    rw [displayVideoAd_timeouts, displayVideoAd_opts]
    rfl
  · rw [hfire, displayVideoAd_opts, destroyVideoJsPlayer_opts, hb]
    show ((displayVideoAd (initialState opts)).opts.fallBackAdTagUrl) = opts.fallBackAdTagUrl
    rw [displayVideoAd_opts]
    rfl
  · rw [hb]
    show (displayVideoAd (initialState opts)).disposeCount = 0
    rw [displayVideoAd_disposeCount _ rfl]
    rfl
  · rw [hfire]
    rw [displayVideoAd_disposeCount _ (destroyVideoJsPlayer_player _)]
    rw [destroyVideoJsPlayer_disposeCount]
    have hpl : (displayAd false navLang (initialState opts)).player = true := by
      rw [hb]
      show (displayVideoAd (initialState opts)).player = true
      exact displayVideoAd_player _
    have hdc : (displayAd false navLang (initialState opts)).disposeCount = 0 := by
      rw [hb]
      show (displayVideoAd (initialState opts)).disposeCount = 0
      rw [displayVideoAd_disposeCount _ rfl]
      rfl
    show (displayAd false navLang (initialState opts)).disposeCount +
      (if (displayAd false navLang (initialState opts)).player then 1 else 0) = 1
    rw [hpl, hdc]
    rfl
  · rw [hb]
    show (displayVideoAd (initialState opts)).createCount = 1
    rw [displayVideoAd_createCount]; rfl
  · rw [hfire, displayVideoAd_createCount]
    have hcc : (displayAd false navLang (initialState opts)).createCount = 1 := by
      rw [hb]
      show (displayVideoAd (initialState opts)).createCount = 1
      rw [displayVideoAd_createCount]; rfl
    show (displayAd false navLang (initialState opts)).createCount + 1 = 2
    rw [hcc]

/-- Options with `content = "optimizely1"`, otherwise the defaults. -/
def optsOptimizely1 : ModuleOptions :=
  { defaultOptions with content := JSVal.str "optimizely1" }

/-- Claim C6 witness: the retry on the default (modal) integration with
browser language `"en"`. -/
theorem displayAd_optimizely1_fallback_retry_witness :
    (displayAd false "en" (initialState optsOptimizely1)).variant = Variant.video ∧
    (displayAd false "en" (initialState optsOptimizely1)).timeouts =
      [⟨TimeoutKind.videoAdRetry, optsOptimizely1.videoAdTimeout⟩] ∧
    (displayAd false "en" (initialState optsOptimizely1)).startedVideoAd = false ∧
    (fireVideoAdRetry (displayAd false "en" (initialState optsOptimizely1))).opts.imaAdTagUrl =
      optsOptimizely1.fallBackAdTagUrl ∧
    ((displayAd false "en" (initialState optsOptimizely1)).disposeCount = 0 ∧
      (fireVideoAdRetry (displayAd false "en" (initialState optsOptimizely1))).disposeCount = 1) ∧
    ((displayAd false "en" (initialState optsOptimizely1)).createCount = 1 ∧
      (fireVideoAdRetry (displayAd false "en" (initialState optsOptimizely1))).createCount = 2) :=
  displayAd_optimizely1_fallback_retry optsOptimizely1 "en" rfl (by decide)

/-- Claim C7 amended: with `content == "smart"` and German browser
language (and no 404 marker), `displayAd` shows the Taboola variant
immediately and schedules a `20 * 1000` ms timeout; when that timeout
fires, the content iframe variant replaces the Taboola variant only if
the *modal* reference is still non-null — in particular a still-open
*container* host (native integration), and likewise a closed session,
is left unchanged. -/
theorem displayAd_smart_german_swap (opts : ModuleOptions) (navLang : String)
    (hcontent : opts.content = JSVal.str "smart")
    (hlang : getBrowserLanguage navLang = "de") :
    (displayAd false navLang (initialState opts)).variant = Variant.taboola ∧
    (displayAd false navLang (initialState opts)).timeouts =
      [⟨TimeoutKind.smartSwap, JSVal.num (20 * 1000)⟩] ∧
    ((displayAd false navLang (initialState opts)).modal = true →
      (fireSmartSwap (displayAd false navLang (initialState opts))).variant =
        Variant.contentIframe ∧
      (fireSmartSwap (displayAd false navLang (initialState opts))).modal = true) ∧
    ((displayAd false navLang (initialState opts)).modal = false →
      fireSmartSwap (displayAd false navLang (initialState opts)) =
        displayAd false navLang (initialState opts)) ∧
    (∀ t : FunnelState, t.modal = false → fireSmartSwap t = t) := by
  have hgen : ∀ t : FunnelState, t.modal = false → fireSmartSwap t = t := by
    intro t ht
    simp only [fireSmartSwap]
    rw [if_neg (by simp [ht])]
  have hb : displayAd false navLang (initialState opts) =
      { displayTalooba (initialState opts) with
        timeouts := (displayTalooba (initialState opts)).timeouts ++
          [⟨TimeoutKind.smartSwap, JSVal.num (20 * 1000)⟩] } := by
    simp only [displayAd]
    rw [if_neg (by simp),
      if_neg (by rw [show (initialState opts).opts.content = JSVal.str "smart" from hcontent]; decide),
      if_pos (by rw [show (initialState opts).opts.content = JSVal.str "smart" from hcontent]; decide),
      if_pos hlang]
  have htab_var : (displayTalooba (initialState opts)).variant = Variant.taboola := by
    simp only [displayTalooba]
    split_ifs <;> rfl
  refine ⟨?_, ?_, ?_, fun h => hgen _ h, hgen⟩
  · rw [hb]
    show (displayTalooba (initialState opts)).variant = Variant.taboola
    exact htab_var
  · rw [hb]
    show (displayTalooba (initialState opts)).timeouts ++
        [⟨TimeoutKind.smartSwap, JSVal.num (20 * 1000)⟩] =
      [⟨TimeoutKind.smartSwap, JSVal.num (20 * 1000)⟩]
    have htab_to : (displayTalooba (initialState opts)).timeouts = [] := by
      simp only [displayTalooba]
      split_ifs <;> rfl
    rw [htab_to]
    rfl
  · intro hm
    have hfire : fireSmartSwap (displayAd false navLang (initialState opts)) =
        displayContentIframe (displayAd false navLang (initialState opts)) := by
      simp only [fireSmartSwap]
      rw [if_pos hm]
    have hci : displayContentIframe (displayAd false navLang (initialState opts)) =
        { displayAd false navLang (initialState opts) with variant := Variant.contentIframe } := by
      simp only [displayContentIframe]
      rw [if_pos hm]
    rw [hfire, hci]
    exact ⟨rfl, hm⟩

/-- Options with the default `content = "smart"` but native
integration. -/
def optsSmartNative : ModuleOptions :=
  { defaultOptions with integration := JSVal.str "native" }

/-- Claim C7 counterexample: under native integration with
`content == "smart"` and German language, `displayAd` opens the
*container* host showing Taboola and schedules the 20s timeout, but when
the timeout fires the `if (modal)` guard fails even though the host is
still open — the content iframe variant never replaces Taboola. -/
theorem displayAd_smart_native_never_swaps :
    (displayAd false "de" (initialState optsSmartNative)).container = true ∧
    (displayAd false "de" (initialState optsSmartNative)).variant = Variant.taboola ∧
    (displayAd false "de" (initialState optsSmartNative)).timeouts =
      [⟨TimeoutKind.smartSwap, JSVal.num 20000⟩] ∧
    (fireSmartSwap (displayAd false "de" (initialState optsSmartNative))).container = true ∧
    (fireSmartSwap (displayAd false "de" (initialState optsSmartNative))).variant =
      Variant.taboola ∧
    (fireSmartSwap (displayAd false "de" (initialState optsSmartNative))).variant ≠
      Variant.contentIframe := by
  decide

/-- Claim C7 witness: with the default (modal) integration the swap does
happen — after the 20s timeout the modal shows the content iframe. -/
theorem displayAd_smart_german_swap_witness :
    (displayAd false "de" (initialState defaultOptions)).variant = Variant.taboola ∧
    (fireSmartSwap (displayAd false "de" (initialState defaultOptions))).variant =
      Variant.contentIframe :=
  ⟨(displayAd_smart_german_swap defaultOptions "de" rfl (by decide)).1,
    ((displayAd_smart_german_swap defaultOptions "de" rfl (by decide)).2.2.1 (by decide)).1⟩

/-- The tail of `bannerCountdownDiv` after its identifying opening
`<div id="adshare-countdown"`. -/
def bannerCountdownDivTail : String :=
  " style=\"font-family: 'Helvetica Neue Light', 'Lucida Grande', 'Calibri', 'Arial', sans-serif; font-size: 10px; text-align: center\"></div>"

set_option maxRecDepth 10000 in
/-- `bannerCountdownDiv` opens with the `adshare-countdown` id. -/
theorem bannerCountdownDiv_split :
    bannerCountdownDiv = "<div id=\"adshare-countdown\"" ++ bannerCountdownDivTail := by
  decide

/-- `applyOptions` never introduces a `messages` property: the default
object has none and no assignment adds one. -/
theorem applyOptions_messages_none (env : JsEnv) (opts : Option (String → JSVal)) :
    (applyOptions env opts).messages = none := by
  cases opts with
  | none => rfl
  | some o =>
    show (applyImaOverrides env o
      (normalizeStringBooleans (forceAutoCloseOff (resolveOptions env o)))).messages = none
    simp only [applyImaOverrides, normalizeStringBooleans, forceAutoCloseOff]
    split_ifs <;> rfl

/-- Claim C10: no configuration produced by `applyOptions` contains a
`messages` field, so whenever `countdownTimer` runs its Running branch
(`timeLeft > 0`) with an `adshare-countdown` element present — the
element the banner variant's HTML creates as its first fragment — the
read `moduleOptions.messages.countdownMessage` throws a TypeError and
the countdown chain is not rescheduled. -/
theorem countdownTimer_messages_type_error (env : JsEnv)
    (opts : Option (String → JSVal)) (dom : DomEnv) (timeLeft : Int) (navLang : String)
    (hrun : 0 < timeLeft) (hdom : dom.hasAdshareCountdown = true) :
    (applyOptions env opts).messages = none ∧
    countdownTimer dom (applyOptions env opts) timeLeft =
      Except.error JsError.typeError ∧
    (∀ html, getBannerElementHTML navLang (applyOptions env opts) = Except.ok html →
      ∃ rest, html = "<div id=\"adshare-countdown\"" ++ rest) := by
  have hmsg := applyOptions_messages_none env opts
  refine ⟨hmsg, ?_, ?_⟩
  · simp [countdownTimer, hmsg, hdom, not_le.mpr hrun]
  · intro html h
    unfold getBannerElementHTML at h
    rcases hlook : messages (getLanguage (applyOptions env opts).locale navLang) with _ | lm
    · rw [hlook] at h; cases h
    · rw [hlook] at h
      injection h with h'
      refine ⟨bannerCountdownDivTail ++ (bannerIframeTag ++ bannerPremiumForm (applyOptions env opts) lm), ?_⟩
      rw [← h', bannerCountdownDiv_split]
      simp [String.append_assoc]

/-- A page with all the countdown-related DOM elements present. -/
def domAll : DomEnv :=
  { hasAdshareCountdown := true, hasCountdownCounter := true,
    hasPicoClose := true, hasContentBoxContainer := true }

/-- Claim C10 witness: with the bare environment and no caller options,
a Running tick (5 s left) on a page showing the `adshare-countdown`
element throws the TypeError. -/
theorem countdownTimer_messages_type_error_witness :
    (applyOptions envBare none).messages = none ∧
    countdownTimer domAll (applyOptions envBare none) 5 =
      Except.error JsError.typeError :=
  ⟨(countdownTimer_messages_type_error envBare none domAll 5 "en" (by decide) rfl).1,
    (countdownTimer_messages_type_error envBare none domAll 5 "en" (by decide) rfl).2.1⟩

end AdshareModal
